import Mathlib

/-!
Shallow embedding of `src/main.py` (class `EthereumPriceMonitor`).

Numbers are modelled as `ℚ`; the in-memory fields of the monitor object
become a `State` record, the persisted JSON config file becomes a
`FileState`, and each method becomes a pure function.  The monitor loop
body (one iteration of `monitor_price`) becomes `monitor_tick`, which
returns the new state together with the notifications emitted and
whether the tray menu was rebuilt.
-/

namespace EthMonitor

/-- In-memory fields of `EthereumPriceMonitor` (`__init__`, src/main.py:15-21). -/
structure State where
  current_price : ℚ
  reference_price : ℚ
  price_change_threshold : ℚ
  last_update : String
  running : Bool
  deriving DecidableEq

/-- Contents of the persisted config file `eth_alarm_config.json`.
`absent` models a missing file, `badJson` a file `json.load` fails on,
and `content` a successfully parsed JSON object in which each of the two
keys is independently present (`some`) or missing (`none`). -/
inductive FileState
  | absent
  | badJson
  | content (refVal thrVal : Option ℚ)
  deriving DecidableEq

/-- The monitor state together with the persisted file. -/
structure Sys where
  st : State
  file : FileState
  deriving DecidableEq

/-- Embeds `load_config` (src/main.py:33-42).  Python reads
`config["reference_price"]` and assigns it to `self.reference_price`
before reading `config["price_change_threshold"]`, and the bare
`except: pass` swallows any failure, so a missing second key leaves the
first assignment in place. -/
def load_config (fs : FileState) (s : State) : State :=
  match fs with
  | .absent => s
  | .badJson => s
  | .content refVal thrVal =>
    match refVal with
    | none => s
    | some r =>
      match thrVal with
      | none => { s with reference_price := r }
      | some t => { s with reference_price := r, price_change_threshold := t }

/-- Embeds `save_config` (src/main.py:44-50): writes both persisted
fields to the file. -/
def save_config (s : Sys) : Sys :=
  { s with file := .content (some s.st.reference_price) (some s.st.price_change_threshold) }

/-- Outcome of the HTTP request in `get_eth_price`.  `netFail` covers an
exception from `requests.get` or `response.json()` (HTTP failure,
timeout, body not JSON); `ok code price` is a parsed JSON body with its
`code` field, where `price` is the result of extracting and parsing
`data["data"][0]["last"]` (`none` when the shape does not match or the
price string does not parse as a number). -/
inductive Response
  | netFail
  | ok (code : String) (price : Option ℚ)

/-- Embeds `get_eth_price` (src/main.py:52-72).  Returns the Python
return value (`True` on success, `False` on any failure) and the updated
system.  On success it stores the price and timestamp, and bootstraps
the reference price (persisting it) when it was `0.0`.  The function is
total: every failure is caught by the `except` block and surfaces only
as the `false` return value. -/
def get_eth_price (resp : Response) (now : String) (s : Sys) : Bool × Sys :=
  match resp with
  | .netFail => (false, s)
  | .ok code price =>
    if code = "0" then
      match price with
      | none => (false, s)
      | some p =>
        let s1 : Sys := { s with st := { s.st with current_price := p, last_update := now } }
        if s1.st.reference_price = 0 then
          (true, save_config { s1 with st := { s1.st with reference_price := p } })
        else
          (true, s1)
    else
      (false, s)

/-- Embeds `calculate_change` (src/main.py:74-79). -/
def calculate_change (st : State) : ℚ :=
  if st.reference_price = 0 then 0
  else (st.current_price - st.reference_price) / st.reference_price * 100

/-- Embeds `check_alert_condition` (src/main.py:81-84). -/
def check_alert_condition (st : State) : Bool :=
  |calculate_change st| ≥ st.price_change_threshold

/-- Round to the nearest integer, ties to even, as Python float
formatting does on the exact value. -/
def roundHalfEven (q : ℚ) : ℤ :=
  let f : ℤ := ⌊q⌋
  let frac : ℚ := q - f
  if frac < 1 / 2 then f
  else if frac > 1 / 2 then f + 1
  else if f % 2 = 0 then f else f + 1

/-- Embeds Python's fixed-point format of `q` with two decimal places as
used in the notify call: two digits after the point, a leading minus
sign exactly for negative inputs, and never a plus sign. -/
def fmt2 (q : ℚ) : String :=
  let m : ℕ := (roundHalfEven (|q| * 100)).toNat
  (if q < 0 then "-" else "")
    ++ toString (m / 100) ++ "."
    ++ (if m % 100 < 10 then "0" else "") ++ toString (m % 100)

/-- The f-string passed to `tray_icon.notify` (src/main.py:91-93),
evaluated on the state at the moment of the call (before the reference
reset). -/
def alert_message (st : State) : String :=
  "Price Alert: ETH changed by " ++ fmt2 (calculate_change st)
    ++ "% and is now at $" ++ fmt2 st.current_price ++ "!"

/-- Observable outcome of one iteration of the monitor loop.  `crashed`
records that the iteration raised an uncaught exception: it aborted
mid-body, and the monitor thread dies (no further iterations run). -/
structure TickResult where
  sys : Sys
  notifs : List String
  uiRefreshed : Bool
  fetchOk : Bool
  crashed : Bool
  deriving DecidableEq

/-- Embeds one iteration of the `while self.running` loop body of
`monitor_price` (src/main.py:86-102).  `hasUI` is
`hasattr(self, "tray_icon")`.  The notify call at src/main.py:91 is
unguarded (unlike the menu rebuild at lines 99-100, which checks
`hasattr`), and the monitor thread starts (line 28) before
`create_tray_icon` assigns the attribute (line 31): if the alert
condition holds while no tray icon is attached, looking up
`self.tray_icon` raises AttributeError, which propagates out of
`monitor_price` — the iteration keeps get_eth_price's updates but emits
no notification, never runs the reference reset and save at lines
94-96, rebuilds no menu, and the thread dies.  The menu rebuild itself
is nested inside the `if self.get_eth_price():` branch, so it only
happens on a successful fetch. -/
def monitor_tick (resp : Response) (now : String) (hasUI : Bool) (s : Sys) : TickResult :=
  let r := get_eth_price resp now s
  if r.1 then
    if check_alert_condition r.2.st then
      if hasUI then
        let msg := alert_message r.2.st
        let s2 := save_config { r.2 with st := { r.2.st with reference_price := r.2.st.current_price } }
        ⟨s2, [msg], true, true, false⟩
      else
        ⟨r.2, [], false, true, true⟩
    else
      ⟨r.2, [], hasUI, true, false⟩
  else
    ⟨r.2, [], false, false, false⟩

/-- A system just after an alert threshold of 1 percent was configured
and a reference of 2000 was persisted. -/
def Sdemo : Sys := ⟨⟨2000, 2000, 1, "", true⟩, .content (some 2000) (some 1)⟩

/-- A fresh system (reference still unset) with the default threshold. -/
def Sboot : Sys := ⟨⟨0, 0, 1, "", true⟩, .absent⟩

/-- A fresh system whose persisted config injected a zero threshold. -/
def Szero : Sys := ⟨⟨0, 0, 0, "", true⟩, .absent⟩

/-! Helper lemmas. -/

lemma roundHalfEven_intCast (n : ℤ) : roundHalfEven ((n : ℚ)) = n := by
  simp [roundHalfEven]

lemma fmt2_nonneg_eval (q : ℚ) (n : ℕ) (h0 : 0 ≤ q) (h : q * 100 = (n : ℚ)) :
    fmt2 q = toString (n / 100) ++ "."
      ++ (if n % 100 < 10 then "0" else "") ++ toString (n % 100) := by
  unfold fmt2
  rw [abs_of_nonneg h0, h, if_neg (not_lt.mpr h0)]
  rw [show ((n : ℚ)) = (((n : ℤ) : ℚ)) by push_cast; ring]
  rw [roundHalfEven_intCast]
  simp

lemma calculate_change_self (st : State) (h : st.reference_price = st.current_price) :
    calculate_change st = 0 := by
  simp [calculate_change, h, sub_self]

lemma get_eth_price_threshold (resp : Response) (now : String) (s : Sys) :
    ((get_eth_price resp now s).2).st.price_change_threshold
      = s.st.price_change_threshold := by
  cases resp with
  | netFail => rfl
  | ok code price =>
    by_cases hc : code = "0" <;> simp [get_eth_price, hc]
    cases price with
    | none => rfl
    | some p =>
      by_cases hr : s.st.reference_price = 0 <;> simp [hr, save_config]

lemma Sdemo_tick :
    monitor_tick (.ok "0" (some 2021)) "12:00:00" true Sdemo
      = ⟨⟨⟨2021, 2021, 1, "12:00:00", true⟩, .content (some 2021) (some 1)⟩,
         ["Price Alert: ETH changed by 1.05% and is now at $2021.00!"], true, true, false⟩ := by
  have hfetch : get_eth_price (.ok "0" (some 2021)) "12:00:00" Sdemo
      = (true, ⟨⟨2021, 2000, 1, "12:00:00", true⟩, .content (some 2000) (some 1)⟩) := by
    simp [get_eth_price, Sdemo]
  have hchange : calculate_change ⟨2021, 2000, 1, "12:00:00", true⟩ = 21 / 20 := by
    norm_num [calculate_change]
  have hcheck : check_alert_condition ⟨2021, 2000, 1, "12:00:00", true⟩ = true := by
    rw [check_alert_condition, hchange]
    norm_num [abs_of_nonneg]
  simp only [monitor_tick, hfetch, hcheck, if_true]
  simp only [alert_message, hchange, save_config]
  rw [fmt2_nonneg_eval (21 / 20) 105 (by norm_num) (by norm_num),
      fmt2_nonneg_eval 2021 202100 (by norm_num) (by norm_num)]
  rfl

lemma Szero_tick :
    monitor_tick (.ok "0" (some 1800)) "09:00:00" true Szero
      = ⟨⟨⟨1800, 1800, 0, "09:00:00", true⟩, .content (some 1800) (some 0)⟩,
         ["Price Alert: ETH changed by 0.00% and is now at $1800.00!"], true, true, false⟩ := by
  have hfetch : get_eth_price (.ok "0" (some 1800)) "09:00:00" Szero
      = (true, ⟨⟨1800, 1800, 0, "09:00:00", true⟩, .content (some 1800) (some 0)⟩) := by
    simp [get_eth_price, Szero, save_config]
  have hchange : calculate_change ⟨1800, 1800, 0, "09:00:00", true⟩ = 0 := by
    norm_num [calculate_change]
  have hcheck : check_alert_condition ⟨1800, 1800, 0, "09:00:00", true⟩ = true := by
    rw [check_alert_condition, hchange]
    norm_num
  simp only [monitor_tick, hfetch, hcheck, if_true]
  simp only [alert_message, hchange, save_config]
  rw [fmt2_nonneg_eval 0 0 (by norm_num) (by norm_num),
      fmt2_nonneg_eval 1800 180000 (by norm_num) (by norm_num)]
  rfl

lemma no_alert_at_reference (p : ℚ) (now : String) (hasUI : Bool) (s : Sys)
    (h : s.st.reference_price = p) (hthr : 0 < s.st.price_change_threshold) :
    (monitor_tick (.ok "0" (some p)) now hasUI s).notifs = [] := by
  obtain ⟨⟨cp, rp, th, lu, ru⟩, f⟩ := s
  simp only [] at h hthr
  subst h
  by_cases hr : rp = 0
  · subst hr
    have hfetch : get_eth_price (.ok "0" (some 0)) now ⟨⟨cp, 0, th, lu, ru⟩, f⟩
        = (true, ⟨⟨0, 0, th, now, ru⟩, .content (some 0) (some th)⟩) := by
      simp [get_eth_price, save_config]
    have hcheck : check_alert_condition ⟨0, 0, th, now, ru⟩ = false := by
      rw [check_alert_condition, calculate_change_self _ rfl]
      simpa using hthr.not_le
    simp [monitor_tick, hfetch, hcheck]
  · have hfetch : get_eth_price (.ok "0" (some rp)) now ⟨⟨cp, rp, th, lu, ru⟩, f⟩
        = (true, ⟨⟨rp, rp, th, now, ru⟩, f⟩) := by
      simp [get_eth_price, hr]
    have hcheck : check_alert_condition ⟨rp, rp, th, now, ru⟩ = false := by
      rw [check_alert_condition, calculate_change_self _ rfl]
      simpa using hthr.not_le
    simp [monitor_tick, hfetch, hcheck]

/-! Claim theorems. -/

/-- C1: for reference > 0 the percent change is
((current - reference) / reference) * 100, and at reference = 0 it is 0
(the division is never taken). -/
theorem C1_percent_change (c r t : ℚ) (u : String) (b : Bool) :
    (0 < r → calculate_change ⟨c, r, t, u, b⟩ = (c - r) / r * 100) ∧
    calculate_change ⟨c, 0, t, u, b⟩ = 0 := by
  constructor
  · intro hr
    simp [calculate_change, ne_of_gt hr]
  · simp [calculate_change]

theorem C1_percent_change_witness :
    calculate_change ⟨2021, 2000, 1, "", true⟩ = (2021 - 2000) / 2000 * 100 ∧
    calculate_change ⟨2021, 0, 1, "", true⟩ = 0 :=
  ⟨(C1_percent_change 2021 2000 1 "" true).1 (by norm_num),
   (C1_percent_change 2021 0 1 "" true).2⟩

/-- C2: the alert condition is true exactly when the absolute percent
change is at least the threshold; in particular equality at the boundary
alerts. -/
theorem C2_check_alert_condition (st : State) :
    (check_alert_condition st = true ↔
      |calculate_change st| ≥ st.price_change_threshold) ∧
    (|calculate_change st| = st.price_change_threshold →
      check_alert_condition st = true) := by
  constructor
  · simp [check_alert_condition]
  · intro h
    simp [check_alert_condition, ge_iff_le, h.ge]

theorem C2_check_alert_condition_witness :
    check_alert_condition ⟨2020, 2000, 1, "", true⟩ = true :=
  (C2_check_alert_condition ⟨2020, 2000, 1, "", true⟩).2 (by
    rw [show calculate_change ⟨2020, 2000, 1, "", true⟩ = 1 by norm_num [calculate_change]]
    simp)

/-- C3 (amended): with a positive threshold, a successful fetch while the
reference is unset stores the price, sets the reference to it, persists
both settings, and emits no notification. -/
theorem C3_bootstrap (p : ℚ) (now : String) (hasUI : Bool) (s : Sys)
    (href : s.st.reference_price = 0) (hthr : 0 < s.st.price_change_threshold) :
    (monitor_tick (.ok "0" (some p)) now hasUI s).sys.st.reference_price = p ∧
    (monitor_tick (.ok "0" (some p)) now hasUI s).sys.st.current_price = p ∧
    (monitor_tick (.ok "0" (some p)) now hasUI s).sys.file
      = .content (some p) (some s.st.price_change_threshold) ∧
    (monitor_tick (.ok "0" (some p)) now hasUI s).notifs = [] := by
  obtain ⟨⟨cp, rp, th, lu, ru⟩, f⟩ := s
  simp only [] at href hthr
  subst href
  have hfetch : get_eth_price (.ok "0" (some p)) now ⟨⟨cp, 0, th, lu, ru⟩, f⟩
      = (true, ⟨⟨p, p, th, now, ru⟩, .content (some p) (some th)⟩) := by
    simp [get_eth_price, save_config]
  have hcheck : check_alert_condition ⟨p, p, th, now, ru⟩ = false := by
    rw [check_alert_condition, calculate_change_self _ rfl]
    simpa using hthr.not_le
  simp [monitor_tick, hfetch, hcheck]

theorem C3_bootstrap_witness :
    Sboot.st.reference_price = 0 ∧
    0 < Sboot.st.price_change_threshold ∧
    (monitor_tick (.ok "0" (some 1800)) "09:00:00" true Sboot).sys.st.reference_price = 1800 ∧
    (monitor_tick (.ok "0" (some 1800)) "09:00:00" true Sboot).sys.st.current_price = 1800 ∧
    (monitor_tick (.ok "0" (some 1800)) "09:00:00" true Sboot).sys.file
      = .content (some 1800) (some Sboot.st.price_change_threshold) ∧
    (monitor_tick (.ok "0" (some 1800)) "09:00:00" true Sboot).notifs = [] := by
  have h := C3_bootstrap 1800 "09:00:00" true Sboot rfl (by norm_num [Sboot])
  exact ⟨rfl, by norm_num [Sboot], h.1, h.2.1, h.2.2.1, h.2.2.2⟩

/-- C3 counterexample: with threshold 0 (injectable through the persisted
config) and the tray icon attached, the very first successful fetch with
an unset reference does raise a notification, so the bootstrap is not
alert-free for every threshold value. -/
theorem C3_counterexample :
    Szero.st.reference_price = 0 ∧
    (monitor_tick (.ok "0" (some 1800)) "09:00:00" true Szero).notifs ≠ [] :=
  ⟨rfl, by rw [Szero_tick]; simp⟩

/-- C4: an iteration that emitted a notification (which requires the tray
icon to be attached, since the unguarded notify raises otherwise and
nothing is emitted) leaves the reference equal to the fetched price and
persists it, and a following iteration that fetches that same price
(with the threshold still positive) raises no alert. -/
theorem C4_alert_resets_reference (resp : Response) (now now2 : String)
    (hasUI hasUI2 : Bool) (s : Sys)
    (hthr : 0 < s.st.price_change_threshold)
    (halert : (monitor_tick resp now hasUI s).notifs ≠ []) :
    (monitor_tick resp now hasUI s).sys.st.reference_price
      = (monitor_tick resp now hasUI s).sys.st.current_price ∧
    (monitor_tick resp now hasUI s).sys.file
      = .content (some (monitor_tick resp now hasUI s).sys.st.current_price)
          (some s.st.price_change_threshold) ∧
    (monitor_tick (.ok "0" (some (monitor_tick resp now hasUI s).sys.st.current_price))
        now2 hasUI2 (monitor_tick resp now hasUI s).sys).notifs = [] := by
  cases hasUI with
  | false =>
    exfalso
    by_cases h1 : (get_eth_price resp now s).1
    · by_cases h2 : check_alert_condition (get_eth_price resp now s).2.st <;>
        simp [monitor_tick, h1, h2] at halert
    · simp [monitor_tick, h1] at halert
  | true =>
  by_cases h1 : (get_eth_price resp now s).1
  · by_cases h2 : check_alert_condition (get_eth_price resp now s).2.st
    · have htick : monitor_tick resp now true s
          = ⟨save_config { (get_eth_price resp now s).2 with
                st := { (get_eth_price resp now s).2.st with
                  reference_price := (get_eth_price resp now s).2.st.current_price } },
             [alert_message (get_eth_price resp now s).2.st], true, true, false⟩ := by
        simp [monitor_tick, h1, h2]
      rw [htick]
      refine ⟨by simp [save_config],
        by simp [save_config]; exact get_eth_price_threshold resp now s, ?_⟩
      refine no_alert_at_reference _ _ _ _ (by simp [save_config]) ?_
      have hth : (save_config { (get_eth_price resp now s).2 with
          st := { (get_eth_price resp now s).2.st with
            reference_price := (get_eth_price resp now s).2.st.current_price } }).st.price_change_threshold
          = s.st.price_change_threshold := by
        simp only [save_config]
        exact get_eth_price_threshold resp now s
      rw [hth]
      exact hthr
    · exfalso
      simp [monitor_tick, h1, h2] at halert
  · exfalso
    simp [monitor_tick, h1] at halert

theorem C4_alert_resets_reference_witness :
    0 < Sdemo.st.price_change_threshold ∧
    (monitor_tick (.ok "0" (some 2021)) "12:00:00" true Sdemo).notifs ≠ [] ∧
    ((monitor_tick (.ok "0" (some 2021)) "12:00:00" true Sdemo).sys.st.reference_price
      = (monitor_tick (.ok "0" (some 2021)) "12:00:00" true Sdemo).sys.st.current_price ∧
    (monitor_tick (.ok "0" (some 2021)) "12:00:00" true Sdemo).sys.file
      = .content (some (monitor_tick (.ok "0" (some 2021)) "12:00:00" true Sdemo).sys.st.current_price)
          (some Sdemo.st.price_change_threshold) ∧
    (monitor_tick (.ok "0" (some (monitor_tick (.ok "0" (some 2021)) "12:00:00" true Sdemo).sys.st.current_price))
        "12:00:10" true (monitor_tick (.ok "0" (some 2021)) "12:00:00" true Sdemo).sys).notifs = []) :=
  ⟨by norm_num [Sdemo], by rw [Sdemo_tick]; simp,
   C4_alert_resets_reference (.ok "0" (some 2021)) "12:00:00" "12:00:10" true true Sdemo
     (by norm_num [Sdemo]) (by rw [Sdemo_tick]; simp)⟩

/-- C5 (amended): a missing file, an unparseable file, or a parsed object
whose reference key is missing leave the in-memory values unchanged and
surface no error; but a parsed object holding the reference key while
the threshold key is missing updates reference_price (the assignment
happens before the failing key lookup) and leaves only the threshold
unchanged. -/
theorem C5_load_config (s : State) :
    load_config .absent s = s ∧
    load_config .badJson s = s ∧
    (∀ tv, load_config (.content none tv) s = s) ∧
    (∀ r, load_config (.content (some r) none) s = { s with reference_price := r }) ∧
    (∀ r t, load_config (.content (some r) (some t)) s
      = { s with reference_price := r, price_change_threshold := t }) :=
  ⟨rfl, rfl, fun _ => rfl, fun _ => rfl, fun _ _ => rfl⟩

theorem C5_load_config_witness :
    load_config .absent ⟨0, 0, 1, "", true⟩ = ⟨0, 0, 1, "", true⟩ ∧
    load_config (.content (some 5) (some 2)) ⟨0, 0, 1, "", true⟩ = ⟨0, 5, 2, "", true⟩ :=
  ⟨(C5_load_config ⟨0, 0, 1, "", true⟩).1,
   (C5_load_config ⟨0, 0, 1, "", true⟩).2.2.2.2 5 2⟩

/-- C5 counterexample: a well-formed JSON object that only holds the
reference key is malformed for this program (its threshold lookup
raises), yet loading it changes the in-memory reference price from
0 to 5. -/
theorem C5_counterexample :
    (load_config (.content (some 5) none) ⟨0, 0, 1, "", true⟩).reference_price ≠
      (⟨0, 0, 1, "", true⟩ : State).reference_price := by
  simp [load_config]

/-- C6: whenever get_eth_price reports failure, the whole system — all
in-memory fields and the persisted file — is unchanged, and the
surrounding loop iteration emits no notification and leaves the system
at that unchanged value. -/
theorem C6_failed_fetch_noop (resp : Response) (now : String) (hasUI : Bool) (s : Sys)
    (hfail : (get_eth_price resp now s).1 = false) :
    (get_eth_price resp now s).2 = s ∧
    (monitor_tick resp now hasUI s).sys = s ∧
    (monitor_tick resp now hasUI s).notifs = [] := by
  have hid : (get_eth_price resp now s).2 = s := by
    cases resp with
    | netFail => rfl
    | ok code price =>
      by_cases hc : code = "0"
      · cases price with
        | none => simp [get_eth_price, hc]
        | some p =>
          exfalso
          simp only [get_eth_price, hc, if_true] at hfail
          by_cases hr : s.st.reference_price = 0 <;> simp [hr] at hfail
      · simp [get_eth_price, hc]
  refine ⟨hid, ?_, ?_⟩ <;> simp [monitor_tick, hfail, hid]

theorem C6_failed_fetch_noop_witness :
    (get_eth_price (.ok "1" (some 2021)) "12:00:00" Sdemo).2 = Sdemo ∧
    (monitor_tick (.ok "1" (some 2021)) "12:00:00" true Sdemo).sys = Sdemo ∧
    (monitor_tick (.ok "1" (some 2021)) "12:00:00" true Sdemo).notifs = [] :=
  C6_failed_fetch_noop (.ok "1" (some 2021)) "12:00:00" true Sdemo (by
    simp [get_eth_price])

/-- C7 (amended): the tray menu is rebuilt on a loop iteration exactly
when the fetch succeeded and a tray icon is attached; a failed fetch
skips the rebuild because it sits inside the success branch. -/
theorem C7_ui_refresh (resp : Response) (now : String) (hasUI : Bool) (s : Sys) :
    (monitor_tick resp now hasUI s).uiRefreshed
      = ((monitor_tick resp now hasUI s).fetchOk && hasUI) := by
  by_cases h1 : (get_eth_price resp now s).1
  · by_cases h2 : check_alert_condition (get_eth_price resp now s).2.st
    · cases hasUI <;> simp [monitor_tick, h1, h2]
    · simp [monitor_tick, h1, h2]
  · simp [monitor_tick, h1]

/-- C7 counterexample: on a failed fetch with a UI attached, no menu
rebuild is requested, contradicting a refresh happening regardless of
the fetch outcome. -/
theorem C7_counterexample :
    (monitor_tick .netFail "12:00:00" true Sdemo).uiRefreshed = false := rfl

/-- C8 (amended): every notification the loop emits is the plain-text
message built from the fixed template with the percent change and
current price each rendered to two decimal places by fmt2, which writes
a minus sign for negative values and no sign otherwise. -/
theorem C8_alert_message_format (resp : Response) (now : String) (hasUI : Bool) (s : Sys)
    (h : (monitor_tick resp now hasUI s).notifs ≠ []) :
    (monitor_tick resp now hasUI s).notifs
      = ["Price Alert: ETH changed by "
          ++ fmt2 (calculate_change (get_eth_price resp now s).2.st)
          ++ "% and is now at $"
          ++ fmt2 (get_eth_price resp now s).2.st.current_price ++ "!"] := by
  by_cases h1 : (get_eth_price resp now s).1
  · by_cases h2 : check_alert_condition (get_eth_price resp now s).2.st
    · cases hasUI with
      | false =>
        exfalso
        simp [monitor_tick, h1, h2] at h
      | true => simp [monitor_tick, h1, h2, alert_message]
    · exfalso
      simp [monitor_tick, h1, h2] at h
  · exfalso
    simp [monitor_tick, h1] at h

theorem C8_alert_message_format_witness :
    (monitor_tick (.ok "0" (some 2021)) "12:00:00" true Sdemo).notifs ≠ [] ∧
    (monitor_tick (.ok "0" (some 2021)) "12:00:00" true Sdemo).notifs
      = ["Price Alert: ETH changed by "
          ++ fmt2 (calculate_change (get_eth_price (.ok "0" (some 2021)) "12:00:00" Sdemo).2.st)
          ++ "% and is now at $"
          ++ fmt2 (get_eth_price (.ok "0" (some 2021)) "12:00:00" Sdemo).2.st.current_price ++ "!"] :=
  ⟨by rw [Sdemo_tick]; simp,
   C8_alert_message_format (.ok "0" (some 2021)) "12:00:00" true Sdemo (by rw [Sdemo_tick]; simp)⟩

/-- C8 counterexample: an alert on a rise of 1.05 percent renders without
any leading plus sign, so the message is not the claimed
explicitly-signed text. -/
theorem C8_counterexample :
    (monitor_tick (.ok "0" (some 2021)) "12:00:00" true Sdemo).notifs
      = ["Price Alert: ETH changed by 1.05% and is now at $2021.00!"] ∧
    ("Price Alert: ETH changed by 1.05% and is now at $2021.00!" : String)
      ≠ "Price Alert: ETH changed by +1.05% and is now at $2021.00!" :=
  ⟨by rw [Sdemo_tick], by decide⟩

/-- C10: after any loop iteration whose fetch succeeded and that ran to
completion (no AttributeError from the unguarded notify aborted it
mid-body — a crashed iteration has no end-of-tick state), given a
positive threshold, the absolute percent change of the resulting state
is strictly below the threshold. -/
theorem C10_post_tick_change_lt_threshold (resp : Response) (now : String)
    (hasUI : Bool) (s : Sys)
    (hthr : 0 < s.st.price_change_threshold)
    (hok : (monitor_tick resp now hasUI s).fetchOk = true)
    (hcr : (monitor_tick resp now hasUI s).crashed = false) :
    |calculate_change (monitor_tick resp now hasUI s).sys.st|
      < (monitor_tick resp now hasUI s).sys.st.price_change_threshold := by
  by_cases h1 : (get_eth_price resp now s).1
  · by_cases h2 : check_alert_condition (get_eth_price resp now s).2.st
    · cases hasUI with
      | false =>
        exfalso
        simp [monitor_tick, h1, h2] at hcr
      | true =>
      have htick : (monitor_tick resp now true s).sys
          = save_config { (get_eth_price resp now s).2 with
              st := { (get_eth_price resp now s).2.st with
                reference_price := (get_eth_price resp now s).2.st.current_price } } := by
        simp [monitor_tick, h1, h2]
      rw [htick]
      have hch : calculate_change ((save_config { (get_eth_price resp now s).2 with
          st := { (get_eth_price resp now s).2.st with
            reference_price := (get_eth_price resp now s).2.st.current_price } }).st) = 0 :=
        calculate_change_self _ (by simp [save_config])
      rw [hch]
      have hth : (save_config { (get_eth_price resp now s).2 with
          st := { (get_eth_price resp now s).2.st with
            reference_price := (get_eth_price resp now s).2.st.current_price } }).st.price_change_threshold
          = s.st.price_change_threshold := by
        simp only [save_config]
        exact get_eth_price_threshold resp now s
      rw [hth]
      simpa using hthr
    · have htick : (monitor_tick resp now hasUI s).sys = (get_eth_price resp now s).2 := by
        simp [monitor_tick, h1, h2]
      rw [htick]
      simp only [check_alert_condition, decide_eq_true_eq, not_le, ge_iff_le] at h2
      exact h2
  · exfalso
    simp [monitor_tick, h1] at hok

theorem C10_post_tick_change_lt_threshold_witness :
    0 < Sdemo.st.price_change_threshold ∧
    (monitor_tick (.ok "0" (some 2021)) "12:00:00" true Sdemo).fetchOk = true ∧
    (monitor_tick (.ok "0" (some 2021)) "12:00:00" true Sdemo).crashed = false ∧
    |calculate_change (monitor_tick (.ok "0" (some 2021)) "12:00:00" true Sdemo).sys.st|
      < (monitor_tick (.ok "0" (some 2021)) "12:00:00" true Sdemo).sys.st.price_change_threshold :=
  ⟨by norm_num [Sdemo], by rw [Sdemo_tick], by rw [Sdemo_tick],
   C10_post_tick_change_lt_threshold (.ok "0" (some 2021)) "12:00:00" true Sdemo
     (by norm_num [Sdemo]) (by rw [Sdemo_tick]) (by rw [Sdemo_tick])⟩

end EthMonitor
